import Mathlib

/-!
Verification of `jules-scratch/verification/verify_membership_list.py`.

The script is a single routine `run_verification` that launches a headless
browser, opens a context and a page, navigates to a fixed URL, waits (with a
10000 ms bound each) for a heading to be visible and for a table-body locator
to have count 1, takes a screenshot on success, and on any exception inside
the `try` block prints a message and takes an error screenshot; a `finally`
clause closes the browser.

We embed the routine shallowly: an `Env` records, for each external
operation, whether it succeeds (or when a page element renders), and
`run_verification` replays the script's exact control flow over that
environment, producing a trace of performed effects, the exception (if any)
that escapes the routine, and the elapsed time.  Times in `Env` are relative
to the start of the wait that observes them; the acquisition steps are given
zero duration since no claim depends on their timing.
-/

/-- Exceptions the script's operations can raise, tagged by origin. -/
inductive Exn where
  | launchError
  | contextError
  | pageError
  | gotoError
  | headingTimeoutError
  | rowCountTimeoutError
  | successScreenshotError
  | errorScreenshotError
deriving DecidableEq, Repr

/-- Rendering of a raised exception inside the handler's printed message. -/
def Exn.message : Exn → String
  | .launchError => "launch failed"
  | .contextError => "new_context failed"
  | .pageError => "new_page failed"
  | .gotoError => "navigation failed"
  | .headingTimeoutError => "Timeout 10000ms exceeded waiting for heading"
  | .rowCountTimeoutError => "Timeout 10000ms exceeded waiting for row count"
  | .successScreenshotError => "screenshot failed"
  | .errorScreenshotError => "screenshot failed"

/-- Observable effects performed by the script, in program order.
A `screenshot` event is recorded only when the capture succeeds (a raising
`page.screenshot` writes no file); `goto` records the explicit timeout
argument passed at the call site (`none` when the source passes no timeout);
the wait events record the `timeout=` argument of the corresponding
`expect(...)` call. -/
inductive Event where
  | launch
  | newContext
  | newPage
  | goto (url : String) (explicitTimeoutMs : Option Nat)
  | waitHeadingVisible (accessibleName : String) (timeoutMs : Nat)
  | waitRowCount (selector : String) (expected : Nat) (timeoutMs : Nat)
  | screenshot (path : String) (fullPage : Bool)
  | printLine (line : String)
  | closeBrowser
deriving DecidableEq, Repr

/-- The environment a run executes against: which external operations
succeed, and how the target page renders.  `headingVisibleAtMs = some t`
means the heading becomes visible `t` ms after the visibility wait starts
(`none`: never).  The table body is modelled as rendering its final
`rowCount` rows at `rowsRenderedAtMs` (holding 0 rows before that). -/
structure Env where
  launchOk : Bool
  newContextOk : Bool
  newPageOk : Bool
  gotoOk : Bool
  gotoDurationMs : Nat
  headingVisibleAtMs : Option Nat
  rowCount : Nat
  rowsRenderedAtMs : Nat
  successScreenshotOk : Bool
  successScreenshotDurationMs : Nat
  errorScreenshotOk : Bool
  errorScreenshotDurationMs : Nat
  closeDurationMs : Nat
deriving DecidableEq, Repr

/-- Result of one run: the effect trace, the exception (if any) escaping
`run_verification` to its caller, and total elapsed time. -/
structure RunResult where
  trace : List Event
  raised : Option Exn
  elapsedMs : Nat
deriving Repr

/- Literal constants of the source. -/

/-- `page.goto("http://localhost:3000/memberships/listMembership")` -/
def targetUrl : String := "http://localhost:3000/memberships/listMembership"

/-- `page.get_by_role("heading", name="Membresías")` -/
def headingName : String := "Membresías"

/-- `page.locator("#membershipsTableBody tr")` -/
def rowSelector : String := "#membershipsTableBody tr"

/-- `to_be_visible(timeout=10000)` -/
def headingWaitTimeoutMs : Nat := 10000

/-- `to_have_count(1, timeout=10000)` -/
def rowCountWaitTimeoutMs : Nat := 10000

/-- `to_have_count(1, ...)` -/
def expectedRowCount : Nat := 1

/-- `page.screenshot(path="jules-scratch/verification/verification.png")` -/
def successPath : String := "jules-scratch/verification/verification.png"

/-- `page.screenshot(path="jules-scratch/verification/error.png")` -/
def errorPath : String := "jules-scratch/verification/error.png"

/-- The source calls `page.screenshot(path=...)` without a `full_page`
argument; Playwright's default for `full_page` is `False` (viewport-only
capture). -/
def screenshotFullPageArg : Bool := false

/-- `print("Screenshot saved to jules-scratch/verification/verification.png")` -/
def successMessage : String :=
  "Screenshot saved to jules-scratch/verification/verification.png"

/-- `print(f"An error occurred: ...")` with the exception interpolated. -/
def errorMessage (e : Exn) : String := "An error occurred: " ++ e.message

/-- Shallow embedding of `run_verification` (verify_membership_list.py,
lines 3–27).  Acquisition (`launch`, `new_context`, `new_page`) happens
before the `try`; the `try` body is navigate, the two bounded waits, the
success screenshot and the success print; `except Exception` prints and
takes the error screenshot; `finally` closes the browser.  A wait that
times out consumes exactly its timeout; a wait that succeeds consumes the
time at which its condition became true. -/
def run_verification (env : Env) : RunResult :=
  -- browser = playwright.chromium.launch(headless=True)
  if env.launchOk then
    -- context = browser.new_context()
    if env.newContextOk then
      -- page = context.new_page()
      if env.newPageOk then
        let acquired : List Event := [.launch, .newContext, .newPage]
        -- try block: goto; expect(heading).to_be_visible; expect(rows).to_have_count(1);
        -- page.screenshot(success); print(success)
        let gotoEv : Event := .goto targetUrl none
        let headingEv : Event := .waitHeadingVisible headingName headingWaitTimeoutMs
        let rowEv : Event := .waitRowCount rowSelector expectedRowCount rowCountWaitTimeoutMs
        let body : List Event × Option Exn × Nat :=
          if env.gotoOk then
            match env.headingVisibleAtMs with
            | none =>
              ([gotoEv, headingEv], some .headingTimeoutError,
                env.gotoDurationMs + headingWaitTimeoutMs)
            | some t =>
              if t ≤ headingWaitTimeoutMs then
                if env.rowCount = expectedRowCount ∧ env.rowsRenderedAtMs ≤ rowCountWaitTimeoutMs then
                  if env.successScreenshotOk then
                    ([gotoEv, headingEv, rowEv,
                       .screenshot successPath screenshotFullPageArg,
                       .printLine successMessage], none,
                      env.gotoDurationMs + t + env.rowsRenderedAtMs
                        + env.successScreenshotDurationMs)
                  else
                    ([gotoEv, headingEv, rowEv], some .successScreenshotError,
                      env.gotoDurationMs + t + env.rowsRenderedAtMs
                        + env.successScreenshotDurationMs)
                else
                  ([gotoEv, headingEv, rowEv], some .rowCountTimeoutError,
                    env.gotoDurationMs + t + rowCountWaitTimeoutMs)
              else
                ([gotoEv, headingEv], some .headingTimeoutError,
                  env.gotoDurationMs + headingWaitTimeoutMs)
          else
            ([gotoEv], some .gotoError, env.gotoDurationMs)
        match body with
        | (bodyTr, none, bodyMs) =>
          -- no exception: fall through to finally: browser.close()
          { trace := acquired ++ bodyTr ++ [.closeBrowser],
            raised := none,
            elapsedMs := bodyMs + env.closeDurationMs }
        | (bodyTr, some e, bodyMs) =>
          -- except Exception as e: print(...); page.screenshot(error path)
          if env.errorScreenshotOk then
            -- handler completed; finally: browser.close(); nothing escapes
            { trace := acquired ++ bodyTr
                ++ [.printLine (errorMessage e),
                    .screenshot errorPath screenshotFullPageArg, .closeBrowser],
              raised := none,
              elapsedMs := bodyMs + env.errorScreenshotDurationMs + env.closeDurationMs }
          else
            -- the handler's screenshot itself raised: finally still runs
            -- browser.close(), then the new exception escapes the routine
            { trace := acquired ++ bodyTr
                ++ [.printLine (errorMessage e), .closeBrowser],
              raised := some .errorScreenshotError,
              elapsedMs := bodyMs + env.errorScreenshotDurationMs + env.closeDurationMs }
      else
        -- context.new_page() raised before the try: nothing catches it,
        -- finally does not exist yet, browser.close() never runs
        { trace := [.launch, .newContext, .newPage],
          raised := some .pageError, elapsedMs := 0 }
    else
      { trace := [.launch, .newContext],
        raised := some .contextError, elapsedMs := 0 }
  else
    { trace := [.launch], raised := some .launchError, elapsedMs := 0 }

/-- The top-level script body is
`with sync_playwright() as playwright: run_verification(playwright)`:
an exception escaping `run_verification` escapes the script and the Python
process exits with a non-zero status; otherwise the exit status is 0. -/
def scriptExitCode (env : Env) : Nat :=
  match (run_verification env).raised with
  | none => 0
  | some _ => 1

/- Derived observations on a run. -/

/-- Whether an event is a successful screenshot write to path `p`. -/
def Event.isShotTo (p : String) : Event → Bool
  | .screenshot q _ => q == p
  | _ => false

/-- Whether an event is a successful full-page screenshot write. -/
def Event.isFullPageShot : Event → Bool
  | .screenshot _ fp => fp
  | _ => false

/-- Whether an event is any successful screenshot write. -/
def Event.isShot : Event → Bool
  | .screenshot _ _ => true
  | _ => false

/-- Whether an event is the browser-close call. -/
def Event.isClose : Event → Bool
  | .closeBrowser => true
  | _ => false

/-- Whether an event is a printed line. -/
def Event.isPrint : Event → Bool
  | .printLine _ => true
  | _ => false

/-- Whether an event is the heading-visibility wait. -/
def Event.isHeadingWait : Event → Bool
  | .waitHeadingVisible _ _ => true
  | _ => false

/-- Whether an event is the row-count wait. -/
def Event.isRowWait : Event → Bool
  | .waitRowCount _ _ _ => true
  | _ => false

/-- Whether an event is a wait carrying exactly the given timeout, or not a
wait at all. -/
def Event.waitBoundIs (b : Nat) : Event → Bool
  | .waitHeadingVisible _ t => t == b
  | .waitRowCount _ _ t => t == b
  | _ => true

/-- Whether an event is a navigation carrying no explicit timeout, or not a
navigation at all. -/
def Event.gotoHasNoExplicitBound : Event → Bool
  | .goto _ b => b.isNone
  | _ => true

/-- The file at path `p` was written during the run. -/
def RunResult.writes (r : RunResult) (p : String) : Bool :=
  r.trace.any (Event.isShotTo p)

/-- Number of browser-close calls in the run. -/
def RunResult.closeCount (r : RunResult) : Nat :=
  (r.trace.filter Event.isClose).length

/-- Number of image files written by the run. -/
def RunResult.imageCount (r : RunResult) : Nat :=
  (r.trace.filter Event.isShot).length

/-- Number of status lines printed by the run. -/
def RunResult.printCount (r : RunResult) : Nat :=
  (r.trace.filter Event.isPrint).length

/-- The run printed the line `s`. -/
def RunResult.printed (r : RunResult) (s : String) : Bool :=
  r.trace.any fun e =>
    match e with
    | .printLine m => m == s
    | _ => false

/-- Number of heading-visibility wait attempts in the run. -/
def RunResult.headingWaitCount (r : RunResult) : Nat :=
  (r.trace.filter Event.isHeadingWait).length

/-- Number of row-count wait attempts in the run. -/
def RunResult.rowWaitCount (r : RunResult) : Nat :=
  (r.trace.filter Event.isRowWait).length

/-- The `try` body raises iff navigation fails, a wait times out
(heading not visible within its bound, or the row count never equal to the
expected count within its bound), or the success screenshot fails. -/
def tryBodyFails (env : Env) : Bool :=
  !env.gotoOk
  || (match env.headingVisibleAtMs with
      | none => true
      | some t => t > headingWaitTimeoutMs)
  || env.rowCount != expectedRowCount
  || env.rowsRenderedAtMs > rowCountWaitTimeoutMs
  || !env.successScreenshotOk

/- Concrete environments used as witnesses and counterexamples. -/

/-- Fully healthy environment: all operations succeed, the heading is
visible immediately and the table renders exactly one row immediately. -/
def envAllOk : Env :=
  { launchOk := true, newContextOk := true, newPageOk := true,
    gotoOk := true, gotoDurationMs := 50,
    headingVisibleAtMs := some 20, rowCount := 1, rowsRenderedAtMs := 30,
    successScreenshotOk := true, successScreenshotDurationMs := 40,
    errorScreenshotOk := true, errorScreenshotDurationMs := 40,
    closeDurationMs := 10 }

/-- Launch succeeds but `browser.new_context()` raises. -/
def envCtxFail : Env :=
  { launchOk := true, newContextOk := false, newPageOk := true,
    gotoOk := true, gotoDurationMs := 50,
    headingVisibleAtMs := some 20, rowCount := 1, rowsRenderedAtMs := 30,
    successScreenshotOk := true, successScreenshotDurationMs := 40,
    errorScreenshotOk := true, errorScreenshotDurationMs := 40,
    closeDurationMs := 10 }

/-- The page renders the heading and two rows (at least one row, but not
exactly one) well within the timeouts. -/
def envTwoRows : Env :=
  { launchOk := true, newContextOk := true, newPageOk := true,
    gotoOk := true, gotoDurationMs := 50,
    headingVisibleAtMs := some 20, rowCount := 2, rowsRenderedAtMs := 30,
    successScreenshotOk := true, successScreenshotDurationMs := 40,
    errorScreenshotOk := true, errorScreenshotDurationMs := 40,
    closeDurationMs := 10 }

/-- Navigation fails and the error-path screenshot also fails. -/
def envGotoAndShotFail : Env :=
  { launchOk := true, newContextOk := true, newPageOk := true,
    gotoOk := false, gotoDurationMs := 50,
    headingVisibleAtMs := some 20, rowCount := 1, rowsRenderedAtMs := 30,
    successScreenshotOk := true, successScreenshotDurationMs := 40,
    errorScreenshotOk := false, errorScreenshotDurationMs := 40,
    closeDurationMs := 10 }

/-- The heading never becomes visible; everything else is healthy. -/
def envHeadingNever : Env :=
  { launchOk := true, newContextOk := true, newPageOk := true,
    gotoOk := true, gotoDurationMs := 50,
    headingVisibleAtMs := none, rowCount := 1, rowsRenderedAtMs := 30,
    successScreenshotOk := true, successScreenshotDurationMs := 40,
    errorScreenshotOk := true, errorScreenshotDurationMs := 40,
    closeDurationMs := 10 }

/-- The heading becomes visible within the visibility wait's bound. -/
def headingVisibleWithin (env : Env) : Bool :=
  match env.headingVisibleAtMs with
  | none => false
  | some t => t ≤ headingWaitTimeoutMs

/-- All exception values, enumerated. -/
def allExns : List Exn :=
  [.launchError, .contextError, .pageError, .gotoError,
   .headingTimeoutError, .rowCountTimeoutError,
   .successScreenshotError, .errorScreenshotError]

/-- The run printed the handler's failure message
(`print(f"An error occurred: ...")` for some exception). -/
def RunResult.reportedFailure (r : RunResult) : Bool :=
  r.trace.any fun ev =>
    match ev with
    | .printLine m => (allExns.map errorMessage).contains m
    | _ => false

/-- Navigation fails while everything else, including the error-path
screenshot, is healthy. -/
def envGotoFail : Env :=
  { launchOk := true, newContextOk := true, newPageOk := true,
    gotoOk := false, gotoDurationMs := 50,
    headingVisibleAtMs := some 20, rowCount := 1, rowsRenderedAtMs := 30,
    successScreenshotOk := true, successScreenshotDurationMs := 40,
    errorScreenshotOk := true, errorScreenshotDurationMs := 40,
    closeDurationMs := 10 }

/-! ## Claim theorems -/

/-- C1, as stated, fails: when launch succeeds but `browser.new_context()`
raises, the routine exits without ever calling `browser.close` — the
session handle is released zero times, not exactly once, because
acquisition happens before the `try`/`finally`. -/
theorem C1_counterexample :
    envCtxFail.launchOk = true ∧ (run_verification envCtxFail).closeCount = 0 := by
  decide

/-- C1 (amended): on every run in which launch, context creation and page
creation all succeed, `browser.close` is called exactly once on every exit
path — success, caught failure, and even when the error-path screenshot
itself raises. -/
theorem C1_close_called_once_after_full_acquisition (env : Env)
    (h1 : env.launchOk = true) (h2 : env.newContextOk = true)
    (h3 : env.newPageOk = true) :
    (run_verification env).closeCount = 1 := by
  unfold run_verification
  cases hg : env.gotoOk with
  | false =>
    cases he : env.errorScreenshotOk <;> simp [h1, h2, h3, hg, he] <;> rfl
  | true =>
    rcases hh : env.headingVisibleAtMs with _ | t
    · cases he : env.errorScreenshotOk <;> simp [h1, h2, h3, hg, hh, he] <;> rfl
    · by_cases ht : t ≤ headingWaitTimeoutMs
      · by_cases hr : env.rowCount = expectedRowCount ∧ env.rowsRenderedAtMs ≤ rowCountWaitTimeoutMs
        · cases hs : env.successScreenshotOk
          · cases he : env.errorScreenshotOk <;> simp [h1, h2, h3, hg, hh, ht, hr, hs, he] <;> rfl
          · simp [h1, h2, h3, hg, hh, ht, hr, hs]
            rfl
        · cases he : env.errorScreenshotOk <;> simp [h1, h2, h3, hg, hh, ht, hr, he] <;> rfl
      · cases he : env.errorScreenshotOk <;> simp [h1, h2, h3, hg, hh, ht, he] <;> rfl

/-- C1 witness: on the fully healthy environment the hypotheses hold and
the close call happens exactly once. -/
theorem C1_witness :
    envAllOk.launchOk = true ∧ envAllOk.newContextOk = true ∧
    envAllOk.newPageOk = true ∧ (run_verification envAllOk).closeCount = 1 :=
  ⟨by decide, by decide, by decide,
    C1_close_called_once_after_full_acquisition envAllOk (by decide) (by decide) (by decide)⟩

/-- C2, as stated, fails: `envTwoRows` renders the heading within the
timeout and renders two rows (hence at least one row) immediately, yet the
run writes the error artifact and not the success artifact, because the
source asserts a row count of exactly 1. -/
theorem C2_counterexample :
    envTwoRows.rowCount ≥ 1 ∧ envTwoRows.rowsRenderedAtMs ≤ rowCountWaitTimeoutMs ∧
    headingVisibleWithin envTwoRows = true ∧
    (run_verification envTwoRows).writes successPath = false ∧
    (run_verification envTwoRows).writes errorPath = true := by
  decide

/-- C2 (amended): for every target page that renders the expected heading
within the timeout and renders exactly one row within the timeout, with
acquisition, navigation and the success screenshot succeeding, the routine
terminates with no escaping exception, the success artifact written and the
error artifact not written. -/
theorem C2_success_when_heading_and_one_row (env : Env) (t : Nat)
    (h1 : env.launchOk = true) (h2 : env.newContextOk = true)
    (h3 : env.newPageOk = true) (h4 : env.gotoOk = true)
    (h5 : env.headingVisibleAtMs = some t) (h6 : t ≤ headingWaitTimeoutMs)
    (h7 : env.rowCount = expectedRowCount)
    (h8 : env.rowsRenderedAtMs ≤ rowCountWaitTimeoutMs)
    (h9 : env.successScreenshotOk = true) :
    (run_verification env).raised = none ∧
    (run_verification env).writes successPath = true ∧
    (run_verification env).writes errorPath = false := by
  unfold run_verification
  simp [h1, h2, h3, h4, h5, h6, h7, h8, h9, RunResult.writes, Event.isShotTo,
    successPath, errorPath]

/-- C2 witness: the healthy environment satisfies every hypothesis with the
heading visible at 20 ms. -/
theorem C2_witness :
    envAllOk.headingVisibleAtMs = some 20 ∧ envAllOk.rowCount = expectedRowCount ∧
    (run_verification envAllOk).raised = none ∧
    (run_verification envAllOk).writes successPath = true ∧
    (run_verification envAllOk).writes errorPath = false :=
  ⟨by decide, by decide,
    C2_success_when_heading_and_one_row envAllOk 20 (by decide) (by decide) (by decide)
      (by decide) (by decide) (by decide) (by decide) (by decide) (by decide)⟩

/-- C3, as stated, fails: on a navigation failure whose error-path
screenshot also raises, the routine catches the original exception but
writes no error artifact, and an exception escapes to the caller. -/
theorem C3_counterexample :
    envGotoAndShotFail.gotoOk = false ∧
    (run_verification envGotoAndShotFail).writes errorPath = false ∧
    (run_verification envGotoAndShotFail).raised.isSome = true := by
  decide

/-- C3 (amended): for every failure arising inside the guarded block
(navigation error, wait timeout, assertion failure, or success-screenshot
failure), provided the error-path screenshot itself succeeds, the routine
catches the exception, writes the error artifact, prints the failure
message, and lets nothing escape to its caller. -/
theorem C3_failures_caught_and_reported (env : Env)
    (h1 : env.launchOk = true) (h2 : env.newContextOk = true)
    (h3 : env.newPageOk = true) (hb : tryBodyFails env = true)
    (he : env.errorScreenshotOk = true) :
    (run_verification env).raised = none ∧
    (run_verification env).writes errorPath = true ∧
    (run_verification env).writes successPath = false ∧
    (run_verification env).reportedFailure = true := by
  unfold run_verification
  cases hg : env.gotoOk with
  | false => simp [h1, h2, h3, hg, he, RunResult.writes, RunResult.reportedFailure, allExns,
          errorMessage, Exn.message, Event.isShotTo, successPath, errorPath, successMessage]
  | true =>
    rcases hh : env.headingVisibleAtMs with _ | t
    · simp [h1, h2, h3, hg, hh, he, RunResult.writes, RunResult.reportedFailure, allExns,
          errorMessage, Exn.message, Event.isShotTo, successPath, errorPath, successMessage]
    · by_cases ht : t ≤ headingWaitTimeoutMs
      · by_cases hr : env.rowCount = expectedRowCount ∧ env.rowsRenderedAtMs ≤ rowCountWaitTimeoutMs
        · cases hs : env.successScreenshotOk
          · simp [h1, h2, h3, hg, hh, ht, hr, hs, he, RunResult.writes, RunResult.reportedFailure, allExns,
          errorMessage, Exn.message, Event.isShotTo, successPath, errorPath, successMessage]
          · exfalso
            simp [tryBodyFails, hg, hh, hs, hr.1] at hb
            rcases hb with hb | hb
            · exact absurd hb (by omega)
            · exact absurd hb (by omega)
        · simp [h1, h2, h3, hg, hh, ht, hr, he, RunResult.writes, RunResult.reportedFailure, allExns,
          errorMessage, Exn.message, Event.isShotTo, successPath, errorPath, successMessage]
      · simp [h1, h2, h3, hg, hh, ht, he, RunResult.writes, RunResult.reportedFailure, allExns,
          errorMessage, Exn.message, Event.isShotTo, successPath, errorPath, successMessage]

/-- C3 witness: heading never renders, error screenshot healthy — the
failure is caught, the error artifact written, the failure reported. -/
theorem C3_witness :
    tryBodyFails envHeadingNever = true ∧
    (run_verification envHeadingNever).raised = none ∧
    (run_verification envHeadingNever).writes errorPath = true ∧
    (run_verification envHeadingNever).reportedFailure = true :=
  ⟨by decide,
    (C3_failures_caught_and_reported envHeadingNever (by decide) (by decide) (by decide)
      (by decide) (by decide)).1,
    (C3_failures_caught_and_reported envHeadingNever (by decide) (by decide) (by decide)
      (by decide) (by decide)).2.1,
    (C3_failures_caught_and_reported envHeadingNever (by decide) (by decide) (by decide)
      (by decide) (by decide)).2.2.2⟩

/-- C4, as stated, fails: when launch succeeds but `browser.new_context()`
raises, the exception escapes the script and the process terminates with a
non-zero status. -/
theorem C4_counterexample : scriptExitCode envCtxFail ≠ 0 := by
  decide

/-- C4 (amended): provided the browser, context and page are all acquired
successfully and the error-path screenshot succeeds whenever it is taken,
the process terminates with exit status 0 even when verification fails. -/
theorem C4_exit_zero_when_handler_healthy (env : Env)
    (h1 : env.launchOk = true) (h2 : env.newContextOk = true)
    (h3 : env.newPageOk = true) (he : env.errorScreenshotOk = true) :
    scriptExitCode env = 0 := by
  unfold scriptExitCode run_verification
  cases hg : env.gotoOk with
  | false => simp [h1, h2, h3, hg, he]
  | true =>
    rcases hh : env.headingVisibleAtMs with _ | t
    · simp [h1, h2, h3, hg, hh, he]
    · by_cases ht : t ≤ headingWaitTimeoutMs
      · by_cases hr : env.rowCount = expectedRowCount ∧ env.rowsRenderedAtMs ≤ rowCountWaitTimeoutMs
        · cases hs : env.successScreenshotOk <;> simp [h1, h2, h3, hg, hh, ht, hr, hs, he]
        · simp [h1, h2, h3, hg, hh, ht, hr, he]
      · simp [h1, h2, h3, hg, hh, ht, he]

/-- C4 witness: navigation fails but the handler is healthy; the process
still exits with status 0. -/
theorem C4_witness :
    envGotoFail.errorScreenshotOk = true ∧ scriptExitCode envGotoFail = 0 :=
  ⟨by decide,
    C4_exit_zero_when_handler_healthy envGotoFail (by decide) (by decide) (by decide) (by decide)⟩

/-- C5, as stated, fails: on a fully successful run the success artifact is
written as a viewport capture (`full_page` defaults to `False`), and no
full-page capture is ever taken. -/
theorem C5_counterexample :
    (run_verification envAllOk).trace.contains (Event.screenshot successPath false) = true ∧
    (run_verification envAllOk).trace.contains (Event.screenshot successPath true) = false := by
  decide

/-- C5 (amended): every screenshot the routine writes, on any run and on
either path, is a viewport capture, never a full-page capture, because the
source omits the `full_page` argument. -/
theorem C5_all_screenshots_viewport_only (env : Env) :
    (run_verification env).trace.all (fun ev => ! ev.isFullPageShot) = true := by
  unfold run_verification
  cases hl : env.launchOk with
  | false => simp [hl, Event.isFullPageShot]
  | true =>
    cases hc : env.newContextOk with
    | false => simp [hl, hc, Event.isFullPageShot]
    | true =>
      cases hp : env.newPageOk with
      | false => simp [hl, hc, hp, Event.isFullPageShot]
      | true =>
        cases hg : env.gotoOk with
        | false =>
          cases he : env.errorScreenshotOk <;>
            simp [hl, hc, hp, hg, he, Event.isFullPageShot, screenshotFullPageArg]
        | true =>
          rcases hh : env.headingVisibleAtMs with _ | t
          · cases he : env.errorScreenshotOk <;>
              simp [hl, hc, hp, hg, hh, he, Event.isFullPageShot, screenshotFullPageArg]
          · by_cases ht : t ≤ headingWaitTimeoutMs
            · by_cases hr : env.rowCount = expectedRowCount ∧ env.rowsRenderedAtMs ≤ rowCountWaitTimeoutMs
              · cases hs : env.successScreenshotOk
                · cases he : env.errorScreenshotOk <;>
                    simp [hl, hc, hp, hg, hh, ht, hr, hs, he, Event.isFullPageShot,
                      screenshotFullPageArg]
                · simp [hl, hc, hp, hg, hh, ht, hr, hs, Event.isFullPageShot,
                    screenshotFullPageArg]
              · cases he : env.errorScreenshotOk <;>
                  simp [hl, hc, hp, hg, hh, ht, hr, he, Event.isFullPageShot,
                    screenshotFullPageArg]
            · cases he : env.errorScreenshotOk <;>
                simp [hl, hc, hp, hg, hh, ht, he, Event.isFullPageShot, screenshotFullPageArg]

/-- C6: if acquisition and navigation succeed, the heading never becomes
visible within its bound and the error-path screenshot succeeds, the run
writes the error artifact, leaves the success artifact absent, and its
total time is the wait bound plus the fixed overhead of the other steps. -/
theorem C6_heading_timeout_writes_error_and_is_bounded (env : Env)
    (h1 : env.launchOk = true) (h2 : env.newContextOk = true)
    (h3 : env.newPageOk = true) (h4 : env.gotoOk = true)
    (hh : headingVisibleWithin env = false) (he : env.errorScreenshotOk = true) :
    (run_verification env).writes errorPath = true ∧
    (run_verification env).writes successPath = false ∧
    (run_verification env).elapsedMs =
      env.gotoDurationMs + headingWaitTimeoutMs
        + env.errorScreenshotDurationMs + env.closeDurationMs := by
  unfold run_verification
  rcases hv : env.headingVisibleAtMs with _ | t
  · simp [h1, h2, h3, h4, hv, he, RunResult.writes, Event.isShotTo, successPath, errorPath]
  · simp only [headingVisibleWithin, hv, decide_eq_false_iff_not] at hh
    simp [h1, h2, h3, h4, hv, hh, he, RunResult.writes, Event.isShotTo, successPath, errorPath]

/-- C6 witness: the heading never renders; the error artifact is written,
the success artifact is absent, and the elapsed time is exactly the wait
bound plus the other steps' durations. -/
theorem C6_witness :
    headingVisibleWithin envHeadingNever = false ∧
    (run_verification envHeadingNever).writes errorPath = true ∧
    (run_verification envHeadingNever).elapsedMs = 50 + headingWaitTimeoutMs + 40 + 10 :=
  ⟨by decide,
    (C6_heading_timeout_writes_error_and_is_bounded envHeadingNever (by decide) (by decide)
      (by decide) (by decide) (by decide) (by decide)).1,
    (C6_heading_timeout_writes_error_and_is_bounded envHeadingNever (by decide) (by decide)
      (by decide) (by decide) (by decide) (by decide)).2.2⟩

/-- C7: both wait-for-condition steps carry an explicit bound of exactly
10000 ms, every wait event in any run carries that bound, the navigation
call passes no explicit timeout, and each wait is attempted at most once
(no retry, no backoff). -/
theorem C7_wait_bounds_fixed_and_single_attempt (env : Env) :
    headingWaitTimeoutMs = 10000 ∧ rowCountWaitTimeoutMs = 10000 ∧
    (run_verification env).trace.all (Event.waitBoundIs 10000) = true ∧
    (run_verification env).trace.all Event.gotoHasNoExplicitBound = true ∧
    (run_verification env).headingWaitCount ≤ 1 ∧
    (run_verification env).rowWaitCount ≤ 1 := by
  refine ⟨rfl, rfl, ?_⟩
  unfold run_verification
  cases hl : env.launchOk with
  | false =>
    simp [hl, Event.waitBoundIs, Event.gotoHasNoExplicitBound, RunResult.headingWaitCount,
      RunResult.rowWaitCount, Event.isHeadingWait, Event.isRowWait]
  | true =>
    cases hc : env.newContextOk with
    | false =>
      simp [hl, hc, Event.waitBoundIs, Event.gotoHasNoExplicitBound, RunResult.headingWaitCount,
        RunResult.rowWaitCount, Event.isHeadingWait, Event.isRowWait]
    | true =>
      cases hp : env.newPageOk with
      | false =>
        simp [hl, hc, hp, Event.waitBoundIs, Event.gotoHasNoExplicitBound,
          RunResult.headingWaitCount, RunResult.rowWaitCount, Event.isHeadingWait,
          Event.isRowWait]
      | true =>
        cases hg : env.gotoOk with
        | false =>
          cases he : env.errorScreenshotOk <;>
            simp [hl, hc, hp, hg, he, Event.waitBoundIs, Event.gotoHasNoExplicitBound,
              RunResult.headingWaitCount, RunResult.rowWaitCount, Event.isHeadingWait,
              Event.isRowWait, headingWaitTimeoutMs, rowCountWaitTimeoutMs]
        | true =>
          rcases hh : env.headingVisibleAtMs with _ | t
          · cases he : env.errorScreenshotOk <;>
              simp [hl, hc, hp, hg, hh, he, Event.waitBoundIs, Event.gotoHasNoExplicitBound,
                RunResult.headingWaitCount, RunResult.rowWaitCount, Event.isHeadingWait,
                Event.isRowWait, headingWaitTimeoutMs, rowCountWaitTimeoutMs]
          · by_cases ht : t ≤ 10000
            · by_cases hr : env.rowCount = 1 ∧ env.rowsRenderedAtMs ≤ 10000
              · cases hs : env.successScreenshotOk
                · cases he : env.errorScreenshotOk <;>
                    simp [hl, hc, hp, hg, hh, ht, hr, hs, he, Event.waitBoundIs,
                      Event.gotoHasNoExplicitBound, RunResult.headingWaitCount,
                      RunResult.rowWaitCount, Event.isHeadingWait, Event.isRowWait,
                      headingWaitTimeoutMs, rowCountWaitTimeoutMs, expectedRowCount]
                · simp [hl, hc, hp, hg, hh, ht, hr, hs, Event.waitBoundIs,
                    Event.gotoHasNoExplicitBound, RunResult.headingWaitCount,
                    RunResult.rowWaitCount, Event.isHeadingWait, Event.isRowWait,
                    headingWaitTimeoutMs, rowCountWaitTimeoutMs, expectedRowCount]
              · cases he : env.errorScreenshotOk <;>
                  simp [hl, hc, hp, hg, hh, ht, hr, he, Event.waitBoundIs,
                    Event.gotoHasNoExplicitBound, RunResult.headingWaitCount,
                    RunResult.rowWaitCount, Event.isHeadingWait, Event.isRowWait,
                    headingWaitTimeoutMs, rowCountWaitTimeoutMs, expectedRowCount]
            · cases he : env.errorScreenshotOk <;>
                simp [hl, hc, hp, hg, hh, ht, he, Event.waitBoundIs,
                  Event.gotoHasNoExplicitBound, RunResult.headingWaitCount,
                  RunResult.rowWaitCount, Event.isHeadingWait, Event.isRowWait,
                  headingWaitTimeoutMs, rowCountWaitTimeoutMs, expectedRowCount]

/-- C8, as stated, fails: when launch succeeds but context creation raises,
the run writes no image file at all and prints no status line. -/
theorem C8_counterexample :
    (run_verification envCtxFail).imageCount = 0 ∧
    (run_verification envCtxFail).printCount = 0 := by
  decide

/-- C8 (amended): provided acquisition succeeds and the error-path
screenshot succeeds whenever it is taken, every run writes exactly one
image file and exactly one status line, and never writes both artifact
paths. -/
theorem C8_exactly_one_artifact_when_capture_healthy (env : Env)
    (h1 : env.launchOk = true) (h2 : env.newContextOk = true)
    (h3 : env.newPageOk = true) (he : env.errorScreenshotOk = true) :
    (run_verification env).imageCount = 1 ∧
    (run_verification env).printCount = 1 ∧
    ((run_verification env).writes successPath && (run_verification env).writes errorPath) = false := by
  unfold run_verification
  cases hg : env.gotoOk with
  | false =>
    simp [h1, h2, h3, hg, he, RunResult.imageCount, RunResult.printCount, RunResult.writes,
      Event.isShot, Event.isPrint, Event.isShotTo, successPath, errorPath]
  | true =>
    rcases hh : env.headingVisibleAtMs with _ | t
    · simp [h1, h2, h3, hg, hh, he, RunResult.imageCount, RunResult.printCount, RunResult.writes,
        Event.isShot, Event.isPrint, Event.isShotTo, successPath, errorPath]
    · by_cases ht : t ≤ headingWaitTimeoutMs
      · by_cases hr : env.rowCount = expectedRowCount ∧ env.rowsRenderedAtMs ≤ rowCountWaitTimeoutMs
        · cases hs : env.successScreenshotOk
          · simp [h1, h2, h3, hg, hh, ht, hr, hs, he, RunResult.imageCount, RunResult.printCount,
              RunResult.writes, Event.isShot, Event.isPrint, Event.isShotTo, successPath, errorPath]
          · simp [h1, h2, h3, hg, hh, ht, hr, hs, RunResult.imageCount, RunResult.printCount,
              RunResult.writes, Event.isShot, Event.isPrint, Event.isShotTo, successPath, errorPath]
        · simp [h1, h2, h3, hg, hh, ht, hr, he, RunResult.imageCount, RunResult.printCount,
            RunResult.writes, Event.isShot, Event.isPrint, Event.isShotTo, successPath, errorPath]
      · simp [h1, h2, h3, hg, hh, ht, he, RunResult.imageCount, RunResult.printCount,
          RunResult.writes, Event.isShot, Event.isPrint, Event.isShotTo, successPath, errorPath]

/-- C8 witness: on the fully healthy run exactly one image and one status
line are produced and the two artifact paths are never both written. -/
theorem C8_witness :
    envAllOk.errorScreenshotOk = true ∧
    (run_verification envAllOk).imageCount = 1 ∧
    (run_verification envAllOk).printCount = 1 :=
  ⟨by decide,
    (C8_exactly_one_artifact_when_capture_healthy envAllOk (by decide) (by decide) (by decide)
      (by decide)).1,
    (C8_exactly_one_artifact_when_capture_healthy envAllOk (by decide) (by decide) (by decide)
      (by decide)).2.1⟩

/-- C9: if launch succeeds but creating the context or the page raises, an
exception escapes `run_verification` and `browser.close` is never called,
because acquisition happens before the `try`/`finally` block. -/
theorem C9_acquisition_failure_leaks_browser (env : Env)
    (h1 : env.launchOk = true)
    (hcp : env.newContextOk = false ∨ env.newPageOk = false) :
    (run_verification env).raised.isSome = true ∧
    (run_verification env).closeCount = 0 := by
  unfold run_verification
  rcases hcp with hc | hp
  · simp [h1, hc, RunResult.closeCount, Event.isClose]
  · cases hc : env.newContextOk <;>
      simp [h1, hc, hp, RunResult.closeCount, Event.isClose]

/-- C9 witness: context creation fails after a successful launch; the
exception escapes and the browser is never closed. -/
theorem C9_witness :
    envCtxFail.newContextOk = false ∧
    (run_verification envCtxFail).raised.isSome = true ∧
    (run_verification envCtxFail).closeCount = 0 :=
  ⟨by decide,
    (C9_acquisition_failure_leaks_browser envCtxFail (by decide) (Or.inl (by decide))).1,
    (C9_acquisition_failure_leaks_browser envCtxFail (by decide) (Or.inl (by decide))).2⟩

/-- C10: when a failure in the guarded block is being handled and the
error-path screenshot itself raises, the `finally` clause still closes the
browser, and the screenshot's exception then escapes `run_verification`. -/
theorem C10_handler_failure_closes_then_propagates (env : Env)
    (h1 : env.launchOk = true) (h2 : env.newContextOk = true)
    (h3 : env.newPageOk = true) (hb : tryBodyFails env = true)
    (he : env.errorScreenshotOk = false) :
    (run_verification env).raised = some Exn.errorScreenshotError ∧
    (run_verification env).closeCount = 1 := by
  unfold run_verification
  cases hg : env.gotoOk with
  | false => simp [h1, h2, h3, hg, he, RunResult.closeCount, Event.isClose]
  | true =>
    rcases hh : env.headingVisibleAtMs with _ | t
    · simp [h1, h2, h3, hg, hh, he, RunResult.closeCount, Event.isClose]
    · by_cases ht : t ≤ headingWaitTimeoutMs
      · by_cases hr : env.rowCount = expectedRowCount ∧ env.rowsRenderedAtMs ≤ rowCountWaitTimeoutMs
        · cases hs : env.successScreenshotOk
          · simp [h1, h2, h3, hg, hh, ht, hr, hs, he, RunResult.closeCount, Event.isClose]
          · exfalso
            simp [tryBodyFails, hg, hh, hs, hr.1] at hb
            rcases hb with hb | hb
            · exact absurd hb (by omega)
            · exact absurd hb (by omega)
        · simp [h1, h2, h3, hg, hh, ht, hr, he, RunResult.closeCount, Event.isClose]
      · simp [h1, h2, h3, hg, hh, ht, he, RunResult.closeCount, Event.isClose]

/-- C10 witness: navigation fails and the error screenshot fails too; the
browser is still closed exactly once and the screenshot exception escapes. -/
theorem C10_witness :
    tryBodyFails envGotoAndShotFail = true ∧
    (run_verification envGotoAndShotFail).raised = some Exn.errorScreenshotError ∧
    (run_verification envGotoAndShotFail).closeCount = 1 :=
  ⟨by decide,
    (C10_handler_failure_closes_then_propagates envGotoAndShotFail (by decide) (by decide)
      (by decide) (by decide) (by decide)).1,
    (C10_handler_failure_closes_then_propagates envGotoAndShotFail (by decide) (by decide)
      (by decide) (by decide) (by decide)).2⟩
